import Mathlib

/-! Verification of the request-correlation and access-logging pipeline of a
small Express task API.  The two middlewares are embedded shallowly:
requestLog emits one structured record per request and calls the next stage;
accessLogger registers a completion listener at entry, times the request, and
appends one formatted line per finished response.  The server registers
accessLogger first and requestLog second, and that registration order is part
of the model. -/

namespace MernLogs

/-- JS truthiness fallback on an optional header value: the expression
h or-else d in the source yields d both when the header is missing and when
it is the empty string, since the empty string is falsy. -/
def jsOr (o : Option String) (d : String) : String :=
  match o with
  | some s => if s = "" then d else s
  | none => d

/-- The request data consumed by the two middlewares: the three headers they
read, the Express-provided address fields, and the method and URL fields. -/
structure Request where
  xRequestId : Option String
  xForwardedFor : Option String
  userAgent : Option String
  reqIp : String
  socketRemote : Option String
  method : String
  url : String
  originalUrl : String
deriving DecidableEq, Repr

/-- The structured record serialized by requestLog: one JSON object per
request with these six fields. -/
structure LogRecord where
  timestamp : String
  requestId : String
  ip : String
  method : String
  path : String
  userAgent : Option String
deriving DecidableEq, Repr

/-- The record requestLog builds: requestId falls back to the sentinel
no-rid, ip falls back from the whole x-forwarded-for value to req.ip, and
path is req.originalUrl. -/
def mkLogRecord (req : Request) (now : String) : LogRecord :=
  { timestamp := now
    requestId := jsOr req.xRequestId "no-rid"
    ip := jsOr req.xForwardedFor req.reqIp
    method := req.method
    path := req.originalUrl
    userAgent := req.userAgent }

/-- Characters of a string with leading and trailing whitespace removed,
the behaviour of the JS trim call. -/
def jsTrim (l : List Char) : List Char :=
  ((l.dropWhile Char.isWhitespace).reverse.dropWhile Char.isWhitespace).reverse

/-- First comma-separated entry of a header value, as the JS split on the
comma followed by indexing at zero produces. -/
def firstEntryChars (s : String) : List Char :=
  (s.data.splitOn ',').headD []

/-- First comma-separated entry of the x-forwarded-for header, or empty
when the header is absent, mirroring the optional-chaining split with the
empty-string default in accessLogger. -/
def xffFirst (req : Request) : List Char :=
  match req.xForwardedFor with
  | some s => firstEntryChars s
  | none => []

/-- Client address derivation in accessLogger: the trimmed first forwarded
entry if truthy, else the socket peer address if truthy, else unknown. -/
def clientIp (req : Request) : String :=
  let t := jsTrim (xffFirst req)
  if t = [] then
    match req.socketRemote with
    | some a => if a = "" then "unknown" else a
    | none => "unknown"
  else String.mk t

/-- Path used in the access line: req.originalUrl with a falsy fallback to
req.url. -/
def accessPath (req : Request) : String :=
  if req.originalUrl = "" then req.url else req.originalUrl

/-- Elapsed nanoseconds converted to tenths of a millisecond, rounded to
nearest as the one-decimal rendering of durationMs does. -/
def durationTenths (ns : Nat) : Nat :=
  (ns + 50000) / 100000

/-- Decimal digits of a natural number, most significant first. -/
def natChars (n : Nat) : List Char :=
  if n < 10 then [Nat.digitChar n]
  else natChars (n / 10) ++ [Nat.digitChar (n % 10)]
decreasing_by exact Nat.div_lt_self (by omega) (by omega)

/-- Rendering of the duration with exactly one digit after the decimal
point, as toFixed with precision one produces. -/
def fmtTenthsChars (t : Nat) : List Char :=
  natChars (t / 10) ++ ['.', Nat.digitChar (t % 10)]

/-- The access-log line as a character list: timestamp, client address,
method, path, status and duration, space-separated, with the ms suffix and
a terminating newline, exactly as the template string in accessLogger. -/
def mkAccessLineChars (ts ip m p : List Char) (status ns : Nat) : List Char :=
  ts ++ ' ' :: ip ++ ' ' :: m ++ ' ' :: p ++ ' ' :: natChars status ++
    ' ' :: (fmtTenthsChars (durationTenths ns) ++ ['m', 's', '\n'])

/-- The access-log line for a request, assembled from the derived client
address and path. -/
def mkAccessLine (req : Request) (now : String) (status ns : Nat) : String :=
  String.mk (mkAccessLineChars now.data (clientIp req).data req.method.data
    (accessPath req).data status ns)

/-- Observable events of the pipeline for one request, in program order. -/
inductive Ev where
  | regFinish
  | nextFromAccess
  | structured (r : LogRecord)
  | nextFromRequest
  | handler
  | finishFired
  | accessAppend (line : String)
deriving DecidableEq, Repr

/-- How a request ends: the response finishes with a status after some
elapsed nanoseconds at some wall-clock instant, or the connection is
aborted first. -/
inductive Outcome where
  | finished (status ns : Nat) (tsFin : String)
  | aborted
deriving DecidableEq, Repr

/-- Events produced by the requestLog middleware body: emit the structured
record, then call next, nothing else, all in one synchronous run. -/
def requestLogEvents (req : Request) (now : String) : List Ev :=
  [Ev.structured (mkLogRecord req now), Ev.nextFromRequest]

/-- Events of the finish listener: it fires only when the response
finishes, and then appends exactly one line. -/
def finishEvents (req : Request) (out : Outcome) : List Ev :=
  match out with
  | Outcome.finished st ns tsF => [Ev.finishFired, Ev.accessAppend (mkAccessLine req tsF st ns)]
  | Outcome.aborted => []

/-- Full per-request event trace.  accessLogger runs first: it registers
the finish listener and calls next; requestLog then emits the structured
record and calls next; the route handler runs; if the response finishes the
listener fires and appends the access line. -/
def pipelineTrace (req : Request) (now : String) (out : Outcome) : List Ev :=
  Ev.regFinish :: Ev.nextFromAccess :: (requestLogEvents req now ++ Ev.handler :: finishEvents req out)

def isStructured : Ev → Bool
  | Ev.structured _ => true
  | _ => false

def isRegFinish : Ev → Bool
  | Ev.regFinish => true
  | _ => false

def isAppend : Ev → Bool
  | Ev.accessAppend _ => true
  | _ => false

def isHandler : Ev → Bool
  | Ev.handler => true
  | _ => false

def isNextRequest : Ev → Bool
  | Ev.nextFromRequest => true
  | _ => false

/-- A concrete request used for counterexamples and witnesses. -/
def reqPlain : Request :=
  { xRequestId := some "abc123"
    xForwardedFor := none
    userAgent := some "curl/8.14.1"
    reqIp := "10.0.0.5"
    socketRemote := some "10.0.0.5"
    method := "GET"
    url := "/api/health"
    originalUrl := "/api/health" }

/-- C1 counterexample: on a concrete request the structured log line is NOT
emitted before the finish listener is registered; the listener registration
is the very first event of the trace, because the server registers
accessLogger before requestLog. -/
theorem c1_counterexample :
    ¬ ((pipelineTrace reqPlain "t" Outcome.aborted).findIdx isStructured <
        (pipelineTrace reqPlain "t" Outcome.aborted).findIdx isRegFinish) := by
  simp [pipelineTrace, requestLogEvents, finishEvents, List.findIdx_cons,
    isRegFinish, isStructured]

/-- C1 (amended): for every request, the access-log finish listener is
registered strictly before the structured log line is emitted, matching the
middleware registration order accessLogger first, requestLog second. -/
theorem c1_listener_registered_before_structured (req : Request) (now : String)
    (out : Outcome) :
    (pipelineTrace req now out).findIdx isRegFinish <
      (pipelineTrace req now out).findIdx isStructured := by
  simp [pipelineTrace, requestLogEvents, finishEvents, List.findIdx_cons,
    isRegFinish, isStructured]

/-- C2: every request that enters the pipeline emits exactly one structured
record, before the route handler runs; when the response finishes exactly
one access line is appended, after the handler; when the connection is
aborted no access line is appended. -/
theorem c2_pipeline_log_invariant (req : Request) (now : String) (out : Outcome) :
    ((pipelineTrace req now out).countP isStructured = 1 ∧
      (pipelineTrace req now out).findIdx isStructured <
        (pipelineTrace req now out).findIdx isHandler) ∧
    (∀ st ns tsF, out = Outcome.finished st ns tsF →
      (pipelineTrace req now out).countP isAppend = 1 ∧
        (pipelineTrace req now out).findIdx isHandler <
          (pipelineTrace req now out).findIdx isAppend) ∧
    (out = Outcome.aborted → (pipelineTrace req now out).countP isAppend = 0) := by
  cases out <;>
    simp [pipelineTrace, requestLogEvents, finishEvents, List.countP_cons,
      List.findIdx_cons, isStructured, isHandler, isAppend]

/-- C2 witness: on a concrete finished request, exactly one access line is
appended. -/
theorem c2_witness :
    (pipelineTrace reqPlain "t" (Outcome.finished 200 800000 "t2")).countP isAppend = 1 :=
  ((c2_pipeline_log_invariant reqPlain "t" (Outcome.finished 200 800000 "t2")).2.1
    200 800000 "t2" rfl).1

/-- C6: requestLog passes control onward exactly once per request,
synchronously and immediately after emitting the structured line: its body
is exactly the emission followed by the next call, and in the whole trace
the structured emission precedes the single nextFromRequest event. -/
theorem c6_requestLog_next_exactly_once (req : Request) (now : String) (out : Outcome) :
    (pipelineTrace req now out).countP isNextRequest = 1 ∧
    (pipelineTrace req now out).findIdx isStructured <
      (pipelineTrace req now out).findIdx isNextRequest ∧
    requestLogEvents req now = [Ev.structured (mkLogRecord req now), Ev.nextFromRequest] := by
  cases out <;>
    simp [pipelineTrace, requestLogEvents, finishEvents, List.countP_cons,
      List.findIdx_cons, isStructured, isNextRequest]

/-- A concrete request whose x-request-id header is present but empty. -/
def reqEmptyRid : Request :=
  { reqPlain with xRequestId := some "" }

/-- A concrete request whose x-forwarded-for header is present but empty. -/
def reqEmptyXff : Request :=
  { reqPlain with xForwardedFor := some "", reqIp := "9.9.9.9" }

/-- A concrete request carrying a two-entry forwarded chain. -/
def reqChain : Request :=
  { reqPlain with xForwardedFor := some "1.2.3.4, 5.6.7.8" }

/-- C3 counterexample: with the x-request-id header present but equal to the
empty string, the structured requestId is the sentinel no-rid rather than
the header value, so the claim as stated fails for present-but-empty
headers. -/
theorem c3_counterexample :
    reqEmptyRid.xRequestId = some "" ∧
    (mkLogRecord reqEmptyRid "t").requestId = "no-rid" ∧
    (mkLogRecord reqEmptyRid "t").requestId ≠ "" := by
  refine ⟨rfl, rfl, by decide⟩

/-- C3 (amended): the structured requestId equals the x-request-id header
value whenever that header is present and non-empty, equals the sentinel
no-rid when the header is absent or empty, and is never anything other than
the header value or the sentinel, so no fresh identifier is ever made up. -/
theorem c3_requestId_fallback (req : Request) (now : String) :
    (∀ s, req.xRequestId = some s → s ≠ "" → (mkLogRecord req now).requestId = s) ∧
    (req.xRequestId = none ∨ req.xRequestId = some "" →
      (mkLogRecord req now).requestId = "no-rid") ∧
    ((mkLogRecord req now).requestId = "no-rid" ∨
      ∃ s, req.xRequestId = some s ∧ (mkLogRecord req now).requestId = s) := by
  refine ⟨?_, ?_, ?_⟩
  · intro s hs hne
    simp [mkLogRecord, jsOr, hs, hne]
  · rintro (h | h) <;> simp [mkLogRecord, jsOr, h]
  · cases h : req.xRequestId with
    | none => exact Or.inl (by simp [mkLogRecord, jsOr, h])
    | some s =>
      by_cases hs : s = ""
      · exact Or.inl (by simp [mkLogRecord, jsOr, h, hs])
      · exact Or.inr ⟨s, rfl, by simp [mkLogRecord, jsOr, h, hs]⟩

/-- C3 witness: a present non-empty header is copied through verbatim. -/
theorem c3_witness : (mkLogRecord reqPlain "t").requestId = "abc123" :=
  (c3_requestId_fallback reqPlain "t").1 "abc123" rfl (by decide)

/-- C9: a present-but-empty x-request-id header is treated exactly like an
absent one, yielding the sentinel no-rid, because the fallback tests
falsiness rather than absence. -/
theorem c9_empty_rid_like_absent (req : Request) (now : String)
    (h : req.xRequestId = some "") :
    (mkLogRecord req now).requestId = "no-rid" ∧
    (mkLogRecord req now).requestId =
      (mkLogRecord { req with xRequestId := none } now).requestId := by
  simp [mkLogRecord, jsOr, h]

/-- C9 witness: the empty-header request gets the sentinel. -/
theorem c9_witness : (mkLogRecord reqEmptyRid "t").requestId = "no-rid" :=
  (c9_empty_rid_like_absent reqEmptyRid "t" rfl).1

/-- C10 counterexample: a request carrying an x-forwarded-for header equal
to the empty string does not get that header value verbatim in the
structured ip field; the code falls back to req.ip instead. -/
theorem c10_counterexample :
    reqEmptyXff.xForwardedFor = some "" ∧
    (mkLogRecord reqEmptyXff "t").ip = "9.9.9.9" ∧
    (mkLogRecord reqEmptyXff "t").ip ≠ "" := by
  refine ⟨rfl, rfl, by decide⟩

/-- C10 (amended): for every request carrying a non-empty x-forwarded-for
header the structured ip field is the entire header value verbatim, and on
the concrete two-entry chain the structured ip differs from the access-log
client address, which keeps only the first entry. -/
theorem c10_ip_verbatim (req : Request) (now : String) :
    (∀ s, req.xForwardedFor = some s → s ≠ "" → (mkLogRecord req now).ip = s) ∧
    ((mkLogRecord reqChain "t").ip = "1.2.3.4, 5.6.7.8" ∧
      clientIp reqChain = "1.2.3.4" ∧
      (mkLogRecord reqChain "t").ip ≠ clientIp reqChain) := by
  refine ⟨?_, rfl, by decide, by decide⟩
  intro s hs hne
  simp [mkLogRecord, jsOr, hs, hne]

/-- C10 witness: the chain request keeps the full header value in the
structured ip field. -/
theorem c10_witness : (mkLogRecord reqChain "t").ip = "1.2.3.4, 5.6.7.8" :=
  (c10_ip_verbatim reqChain "t").1 "1.2.3.4, 5.6.7.8" rfl (by decide)

/-- C4: the access-log client address is the trimmed first comma-separated
forwarded entry when that is non-empty; otherwise the non-empty socket peer
address; otherwise the literal unknown. -/
theorem c4_client_address_chain (req : Request) :
    (∀ s, req.xForwardedFor = some s → jsTrim (firstEntryChars s) ≠ [] →
      clientIp req = String.mk (jsTrim (firstEntryChars s))) ∧
    (jsTrim (xffFirst req) = [] → ∀ a, req.socketRemote = some a → a ≠ "" →
      clientIp req = a) ∧
    (jsTrim (xffFirst req) = [] →
      req.socketRemote = none ∨ req.socketRemote = some "" →
      clientIp req = "unknown") := by
  refine ⟨?_, ?_, ?_⟩
  · intro s hs hne
    simp [clientIp, xffFirst, hs, hne]
  · intro h a ha hne
    simp [clientIp, h, ha, hne]
  · intro h hcase
    rcases hcase with h2 | h2 <;> simp [clientIp, h, h2]

/-- C4 witness: the specified example chain derives the first entry. -/
theorem c4_witness : clientIp reqChain = "1.2.3.4" :=
  ((c4_client_address_chain reqChain).1 "1.2.3.4, 5.6.7.8" rfl (by decide)).trans
    (by decide)

/-- Process-visible state touched by the completion handler: the access-log
file contents, the diagnostic sink, and the response bytes the client
sees. -/
structure SysState where
  accessFile : List String
  diagnostics : List String
  clientResponse : List String
deriving DecidableEq, Repr

/-- Result reported to the append callback by the filesystem. -/
inductive AppendResult where
  | ok
  | error (msg : String)
deriving DecidableEq, Repr

/-- The callback passed to the append: on error it writes one line to the
diagnostic sink and does nothing else; on success it does nothing. -/
def appendCallback (err : Option String) (s : SysState) : SysState :=
  match err with
  | none => s
  | some msg =>
    { s with diagnostics := s.diagnostics ++ ["access log write failed: " ++ msg] }

/-- The fire-and-forget append: on success the line is appended to the file
and the callback sees no error; on failure the file is untouched and the
callback sees the error. -/
def fsAppendFile (line : String) (r : AppendResult) (s : SysState) : SysState :=
  match r with
  | AppendResult.ok => appendCallback none { s with accessFile := s.accessFile ++ [line] }
  | AppendResult.error m => appendCallback (some m) s

/-- C7: a failed append leaves the access-log file and the client-visible
response unchanged and adds exactly one report to the diagnostic sink; the
handler is a total function, so nothing is thrown and nothing is
retried. -/
theorem c7_append_error_contained (line msg : String) (s : SysState) :
    (fsAppendFile line (AppendResult.error msg) s).accessFile = s.accessFile ∧
    (fsAppendFile line (AppendResult.error msg) s).clientResponse = s.clientResponse ∧
    (fsAppendFile line (AppendResult.error msg) s).diagnostics =
      s.diagnostics ++ ["access log write failed: " ++ msg] := by
  simp [fsAppendFile, appendCallback]

/-- Filesystem state for the startup step: the set of existing directories
and whether creation is permitted. -/
structure DiskState where
  dirs : List String
  writable : Bool
deriving DecidableEq, Repr

/-- The fixed log directory path from the source. -/
def LOG_DIR : String := "/usr/src/app/logs"

/-- Proper ancestor paths of a slash-separated path. -/
def parentDirs (p : String) : List String :=
  (List.range ((p.splitOn "/").length - 1)).map
    (fun k => String.intercalate "/" ((p.splitOn "/").take (k + 1)))

/-- Modelled from the spec: the recursive directory creation used at module
load calls the platform filesystem API, whose code is not part of this
repository. Per the spec it creates the directory and any missing parents
when absent, succeeds without error when the directory already exists, and
fails for any other reason such as permissions or disk. -/
def mkdirRecursive (d : DiskState) (p : String) : Except String DiskState :=
  if p ∈ d.dirs then Except.ok d
  else if d.writable then Except.ok { d with dirs := p :: (parentDirs p ++ d.dirs) }
  else Except.error "mkdir failed"

/-- Startup outcome: either the server is serving traffic on some disk
state, or startup failed. -/
inductive StartupResult where
  | serving (d : DiskState)
  | failed (e : String)
deriving DecidableEq, Repr

/-- Server startup: the module-level directory creation runs before the
server begins serving traffic, so a creation failure prevents serving. -/
def startServing (d : DiskState) : StartupResult :=
  match mkdirRecursive d LOG_DIR with
  | Except.ok d2 => StartupResult.serving d2
  | Except.error e => StartupResult.failed e

/-- C8: directory creation succeeds without error and without change when
the directory already exists; a successful creation followed by a second
creation succeeds again; and when creation fails the process never reaches
the serving state. -/
theorem c8_mkdir_idempotent_and_startup_fatal :
    (∀ (d : DiskState) (p : String), p ∈ d.dirs → mkdirRecursive d p = Except.ok d) ∧
    (∀ (d : DiskState) (p : String) (d2 : DiskState),
      mkdirRecursive d p = Except.ok d2 → mkdirRecursive d2 p = Except.ok d2) ∧
    (∀ (d : DiskState) (e : String),
      mkdirRecursive d LOG_DIR = Except.error e →
      startServing d = StartupResult.failed e) := by
  refine ⟨?_, ?_, ?_⟩
  · intro d p h
    simp [mkdirRecursive, h]
  · intro d p d2 h
    by_cases hp : p ∈ d.dirs
    · simp [mkdirRecursive, hp] at h
      subst h
      simp [mkdirRecursive, hp]
    · by_cases hw : d.writable
      · simp [mkdirRecursive, hp, hw] at h
        subst h
        simp [mkdirRecursive]
      · simp [mkdirRecursive, hp, hw] at h
  · intro d e h
    simp [startServing, h]

/-- C8 witness: creating the log directory when it already exists succeeds
and changes nothing. -/
theorem c8_witness :
    mkdirRecursive ⟨[LOG_DIR], true⟩ LOG_DIR = Except.ok ⟨[LOG_DIR], true⟩ :=
  c8_mkdir_idempotent_and_startup_fatal.1 ⟨[LOG_DIR], true⟩ LOG_DIR (by simp)

theorem digitChar_isDigit : ∀ m : Nat, m < 10 → (Nat.digitChar m).isDigit = true := by
  decide

theorem natChars_isDigit (n : Nat) : ∀ c ∈ natChars n, c.isDigit = true := by
  induction n using Nat.strong_induction_on with
  | _ n ih =>
    intro c hc
    rw [natChars] at hc
    by_cases h : n < 10
    · rw [if_pos h] at hc
      simp only [List.mem_singleton] at hc
      subst hc
      exact digitChar_isDigit n h
    · rw [if_neg h] at hc
      rcases List.mem_append.mp hc with h1 | h1
      · exact ih (n / 10) (Nat.div_lt_self (by omega) (by omega)) c h1
      · simp only [List.mem_singleton] at h1
        subst h1
        exact digitChar_isDigit (n % 10) (Nat.mod_lt n (by omega))

theorem isDigit_not_special (c : Char) (h : c.isDigit = true) :
    c ≠ ' ' ∧ c ≠ '\n' ∧ c ≠ '.' ∧ c ≠ '-' := by
  refine ⟨?_, ?_, ?_, ?_⟩ <;> rintro rfl <;> exact absurd h (by decide)

theorem natChars_no_space (n : Nat) : ' ' ∉ natChars n := fun hmem =>
  (isDigit_not_special ' ' (natChars_isDigit n ' ' hmem)).1 rfl

theorem natChars_no_newline (n : Nat) : '\n' ∉ natChars n := fun hmem =>
  (isDigit_not_special '\n' (natChars_isDigit n '\n' hmem)).2.1 rfl

theorem natChars_no_dot (n : Nat) : '.' ∉ natChars n := fun hmem =>
  (isDigit_not_special '.' (natChars_isDigit n '.' hmem)).2.2.1 rfl

theorem natChars_no_minus (n : Nat) : '-' ∉ natChars n := fun hmem =>
  (isDigit_not_special '-' (natChars_isDigit n '-' hmem)).2.2.2 rfl

theorem fmtTenthsChars_no_space (t : Nat) : ' ' ∉ fmtTenthsChars t := by
  intro hmem
  rcases List.mem_append.mp hmem with h1 | h1
  · exact natChars_no_space _ h1
  · simp only [List.mem_cons, List.mem_singleton, List.not_mem_nil, or_false] at h1
    rcases h1 with h2 | h2
    · exact absurd h2 (by decide)
    · exact (isDigit_not_special ' '
        (h2 ▸ digitChar_isDigit (t % 10) (Nat.mod_lt t (by omega)))).1 rfl

theorem fmtTenthsChars_no_newline (t : Nat) : '\n' ∉ fmtTenthsChars t := by
  intro hmem
  rcases List.mem_append.mp hmem with h1 | h1
  · exact natChars_no_newline _ h1
  · simp only [List.mem_cons, List.mem_singleton, List.not_mem_nil, or_false] at h1
    rcases h1 with h2 | h2
    · exact absurd h2 (by decide)
    · exact (isDigit_not_special '\n'
        (h2 ▸ digitChar_isDigit (t % 10) (Nat.mod_lt t (by omega)))).2.1 rfl

theorem fmtTenthsChars_no_minus (t : Nat) : '-' ∉ fmtTenthsChars t := by
  intro hmem
  rcases List.mem_append.mp hmem with h1 | h1
  · exact natChars_no_minus _ h1
  · simp only [List.mem_cons, List.mem_singleton, List.not_mem_nil, or_false] at h1
    rcases h1 with h2 | h2
    · exact absurd h2 (by decide)
    · exact (isDigit_not_special '-'
        (h2 ▸ digitChar_isDigit (t % 10) (Nat.mod_lt t (by omega)))).2.2.2 rfl

theorem splitOn_space_step (xs rest : List Char) (hxs : ' ' ∉ xs) :
    (xs ++ ' ' :: rest).splitOn ' ' = xs :: rest.splitOn ' ' := by
  simp only [List.splitOn]
  apply List.splitOnP_first
  · intro x hx
    simp only [beq_iff_eq]
    rintro rfl
    exact hxs hx
  · simp

theorem mkAccessLineChars_splitOn (ts ip m p : List Char) (st ns : Nat)
    (hts : ' ' ∉ ts) (hip : ' ' ∉ ip) (hm : ' ' ∉ m) (hp : ' ' ∉ p) :
    (mkAccessLineChars ts ip m p st ns).splitOn ' ' =
      [ts, ip, m, p, natChars st, fmtTenthsChars (durationTenths ns) ++ ['m', 's', '\n']] := by
  rw [mkAccessLineChars]
  simp only [List.cons_append, List.append_assoc]
  rw [splitOn_space_step ts _ hts, splitOn_space_step ip _ hip,
    splitOn_space_step m _ hm, splitOn_space_step p _ hp,
    splitOn_space_step (natChars st) _ (natChars_no_space st)]
  simp only [List.splitOn]
  rw [List.splitOnP_eq_single]
  intro x hx
  simp only [beq_iff_eq]
  rintro rfl
  rcases List.mem_append.mp hx with h1 | h1
  · exact fmtTenthsChars_no_space _ h1
  · exact absurd h1 (by decide)

theorem mkAccessLineChars_count_newline (ts ip m p : List Char) (st ns : Nat)
    (nts : '\n' ∉ ts) (nip : '\n' ∉ ip) (nm : '\n' ∉ m) (np2 : '\n' ∉ p) :
    (mkAccessLineChars ts ip m p st ns).count '\n' = 1 := by
  have c1 := List.count_eq_zero.mpr nts
  have c2 := List.count_eq_zero.mpr nip
  have c3 := List.count_eq_zero.mpr nm
  have c4 := List.count_eq_zero.mpr np2
  have c5 := List.count_eq_zero.mpr (natChars_no_newline st)
  have c6 := List.count_eq_zero.mpr (fmtTenthsChars_no_newline (durationTenths ns))
  simp [mkAccessLineChars, List.count_append, List.count_cons, c1, c2, c3, c4, c5, c6]

/-- C5: the access line splits on spaces into exactly the six fields in
source order, is newline-terminated with that newline as the only one in
the line provided the fields carry none, and the duration field consists of
decimal digits with exactly one digit after its only decimal point and
carries no minus sign. -/
theorem c5_access_line_format (ts ip m p : List Char) (st ns : Nat)
    (hts : ' ' ∉ ts) (hip : ' ' ∉ ip) (hm : ' ' ∉ m) (hp : ' ' ∉ p)
    (nts : '\n' ∉ ts) (nip : '\n' ∉ ip) (nm : '\n' ∉ m) (np2 : '\n' ∉ p) :
    (mkAccessLineChars ts ip m p st ns).splitOn ' ' =
      [ts, ip, m, p, natChars st, fmtTenthsChars (durationTenths ns) ++ ['m', 's', '\n']] ∧
    (∃ A, mkAccessLineChars ts ip m p st ns = A ++ ['\n']) ∧
    (mkAccessLineChars ts ip m p st ns).count '\n' = 1 ∧
    fmtTenthsChars (durationTenths ns) =
      natChars (durationTenths ns / 10) ++ ['.', Nat.digitChar (durationTenths ns % 10)] ∧
    (Nat.digitChar (durationTenths ns % 10)).isDigit = true ∧
    '.' ∉ natChars (durationTenths ns / 10) ∧
    '-' ∉ fmtTenthsChars (durationTenths ns) := by
  refine ⟨mkAccessLineChars_splitOn ts ip m p st ns hts hip hm hp,
    ⟨ts ++ ' ' :: ip ++ ' ' :: m ++ ' ' :: p ++ ' ' :: natChars st ++
      ' ' :: (fmtTenthsChars (durationTenths ns) ++ ['m', 's']), ?_⟩,
    mkAccessLineChars_count_newline ts ip m p st ns nts nip nm np2,
    rfl,
    digitChar_isDigit _ (Nat.mod_lt _ (by omega)),
    natChars_no_dot _,
    fmtTenthsChars_no_minus _⟩
  simp [mkAccessLineChars]

def wTs : List Char := "2025-11-04T10:47:26.512Z".data

def wIp : List Char := "172.21.0.1".data

def wMeth : List Char := "GET".data

def wPath : List Char := "/api/health".data

/-- C5 witness: the concrete example line splits into the six fields. -/
theorem c5_witness :
    (mkAccessLineChars wTs wIp wMeth wPath 200 800000).splitOn ' ' =
      [wTs, wIp, wMeth, wPath, natChars 200,
        fmtTenthsChars (durationTenths 800000) ++ ['m', 's', '\n']] :=
  (c5_access_line_format wTs wIp wMeth wPath 200 800000 (by decide) (by decide)
    (by decide) (by decide) (by decide) (by decide) (by decide) (by decide)).1

end MernLogs
